import Mathlib

/-!
Shallow embedding of the QR-code employee registry (`app.py`).

The embedding models the string primitives the handlers use (Python
`split`, `strip`, `startswith`, substring containment, lower-casing) on
`List Char`, and the four request handlers on the file (JSON) backend.
The MongoDB collection handle is abstracted as a configuration flag plus
two lookup functions; `Except.error` models the library call raising.
-/

namespace QrApp

/-- Python whitespace characters as used by `str.strip` (ASCII subset). -/
def isSpaceChar (c : Char) : Bool :=
  c == ' ' || c == '\t' || c == '\n' || c == '\r' || c == '\x0b' || c == '\x0c'

/-- Python `str.strip`: remove leading and trailing whitespace. -/
def pyStrip (l : List Char) : List Char :=
  ((l.dropWhile isSpaceChar).reverse.dropWhile isSpaceChar).reverse

/-- Python `str.split(sep)` for a one-character separator: every occurrence
splits, and the empty string yields one empty chunk. -/
def pySplitChar (c : Char) : List Char → List (List Char)
  | [] => [[]]
  | a :: t =>
    if a == c then [] :: pySplitChar c t
    else
      match pySplitChar c t with
      | [] => [[a]]
      | h :: r => (a :: h) :: r

/-- `leadsWith pat l`: the list `l` starts with `pat` (Python `str.startswith`). -/
def leadsWith : List Char → List Char → Bool
  | [], _ => true
  | _ :: _, [] => false
  | a :: p, b :: l => a == b && leadsWith p l

/-- Split around the first occurrence of `sep`: `some (before, after)`, or
`none` when `sep` does not occur. -/
def splitAtFirst (sep : List Char) : List Char → Option (List Char × List Char)
  | [] => none
  | b :: t =>
    if leadsWith sep (b :: t) then some ([], (b :: t).drop sep.length)
    else
      match splitAtFirst sep t with
      | none => none
      | some (pre, rest) => some (b :: pre, rest)

/-- Python `line.split(sep)[1]`: the chunk between the first and the second
occurrence of `sep` (or up to the end when there is no second occurrence).
The handlers only call this after `line.startswith(sep)` succeeded. -/
def pySplitSecond (sep line : List Char) : List Char :=
  match splitAtFirst sep line with
  | none => []
  | some (_, rest) =>
    match splitAtFirst sep rest with
    | none => rest
    | some (pre, _) => pre

/-- Occurrence test on character lists (Python `needle in haystack`). -/
def hasSub (n : List Char) : List Char → Bool
  | [] => n.isEmpty
  | b :: h => leadsWith n (b :: h) || hasSub n h

/-- Python `needle in haystack` for strings: substring containment. -/
def pyIn (needle haystack : String) : Bool :=
  hasSub needle.toList haystack.toList

/-- Python `str.lower` on one character (ASCII range, the one the app uses). -/
def pyLowerChar (c : Char) : Char :=
  if 'A' ≤ c && c ≤ 'Z' then Char.ofNat (c.toNat + 32) else c

/-- Python `str.lower`. -/
def pyLower (s : String) : String := String.mk (s.toList.map pyLowerChar)

/-- Code-point lexicographic comparison of character lists (Python `<=` on
strings, used by the sort key comparison). -/
def charListLe : List Char → List Char → Bool
  | [], _ => true
  | _ :: _, [] => false
  | a :: s, b :: t => if a == b then charListLe s t else decide (a.toNat < b.toNat)

/-- Python `<=` on strings. -/
def pyStrLe (s t : String) : Bool := charListLe s.toList t.toList

/-- An employee record as built by the create handler (app.py 97-117): all
field values are strings, `created_at` is the stringified creation time and
`_id` the backend-assigned record id (added at line 115 on the file backend). -/
structure Employee where
  name : String
  dob : String
  joining_date : String
  post : String
  department : String
  employee_id : String
  created_at : String
  _id : String
deriving DecidableEq

/-- The serialized record object in dict insertion order (app.py 97-105 with
the `_id` key added at 115/120): this is what the listing and quick-search
endpoints return for each record. -/
def employeePairs (e : Employee) : List (String × String) :=
  [("name", e.name), ("dob", e.dob), ("joining_date", e.joining_date),
   ("post", e.post), ("department", e.department),
   ("employee_id", e.employee_id), ("created_at", e.created_at), ("_id", e._id)]

/-- The QR payload built at app.py 124-131: the multi-line f-string template
followed by `.strip()`. -/
def qr_data (name employee_id post department record_id : String) : String :=
  String.mk (pyStrip ("\nEmployee Verification:\nName: " ++ name ++
    "\nEmployee ID: " ++ employee_id ++ "\nPost: " ++ post ++
    "\nDepartment: " ++ department ++ "\nRecord ID: " ++ record_id ++
    "\n        ").toList)

/-- The literal label scanned for at app.py 173. -/
def recLabel : List Char := "Record ID:".toList

/-- The literal label scanned for at app.py 175. -/
def empLabel : List Char := "Employee ID:".toList

/-- One iteration of the extraction loop (app.py 172-176); a later matching
line overwrites an earlier extraction. -/
def parseLine (acc : Option String × Option String) (line : List Char) :
    Option String × Option String :=
  if leadsWith recLabel line then
    (some (String.mk (pyStrip (pySplitSecond recLabel line))), acc.2)
  else if leadsWith empLabel line then
    (acc.1, some (String.mk (pyStrip (pySplitSecond empLabel line))))
  else acc

/-- The scanned-text parser (app.py 168-176): split on newlines and extract
the two labelled identifiers. -/
def parseScanned (s : String) : Option String × Option String :=
  (pySplitChar '\n' s.toList).foldl parseLine (none, none)

/-- Python truthiness of the extracted id variables (`None` or a string:
falsy when absent or empty). -/
def pyTruthy : Option String → Bool
  | none => false
  | some s => !(s == "")

/-- The storage configuration of the process: `dbConfigured` is the
truthiness of the module-level `employees` handle (app.py 32-50); the two
database lookups abstract `employees.find_one` with `Except.error` modelling
the call raising; `fileStore` is the parsed contents of `employees.json`. -/
structure Backends where
  dbConfigured : Bool
  dbFindByRecordId : String → Except Unit (Option Employee)
  dbFindByEmployeeId : String → Except Unit (Option Employee)
  fileStore : List Employee

/-- Response of the `/scan_data` handler. -/
structure ScanResponse where
  success : Bool
  employee_data : Option (List (String × String))
  scanned_data : String
deriving DecidableEq

/-- The redacted payload built at app.py 214-220. -/
def secure_data (e : Employee) : List (String × String) :=
  [("name", e.name), ("employee_id", e.employee_id), ("post", e.post),
   ("department", e.department), ("joining_date", e.joining_date)]

/-- The response branch of `/scan_data` (app.py 208-233): a match is
redacted, no match echoes the scanned text with a null record. -/
def scanRespond (scanned_data : String) : Option Employee → ScanResponse
  | some e =>
    { success := true, employee_data := some (secure_data e),
      scanned_data := scanned_data }
  | none =>
    { success := true, employee_data := none, scanned_data := scanned_data }

/-- The `/scan_data` handler (app.py 162-233). Both lookup phases are guarded
by the truthiness of the database handle, exactly as in the source (lines 182
and 198). -/
def scan_data (B : Backends) (scanned_data : String) : ScanResponse :=
  let ids := parseScanned scanned_data
  let record_id := ids.1
  let employee_id := ids.2
  let d1 : Option Employee :=
    if pyTruthy record_id then
      if B.dbConfigured then
        let rid := record_id.getD ""
        if leadsWith "JSON".toList rid.toList then
          B.fileStore.find? (fun emp => emp._id == rid)
        else
          match B.dbFindByRecordId rid with
          | Except.ok r => r
          | Except.error _ => none
      else none
    else none
  let d2 : Option Employee :=
    if d1.isNone && pyTruthy employee_id then
      if B.dbConfigured then
        let eid := employee_id.getD ""
        match B.dbFindByEmployeeId eid with
        | Except.ok r => r
        | Except.error _ => B.fileStore.find? (fun emp => emp.employee_id == eid)
      else d1
    else d1
  scanRespond scanned_data d2

/-- Response of the `/generate_qr` handler (app.py 151-156); `qr_code`
carries the payload that the qrcode library renders into the base64 PNG of
the data URI. -/
structure GenQrResponse where
  success : Bool
  qr_code : String
  employee_data : List (String × String)
  record_id : String
deriving DecidableEq

/-- The file-backend record id (app.py 114): the literal `JSON` prefix
followed by the second-resolution creation timestamp. -/
def file_record_id (ts : String) : String := "JSON" ++ ts

/-- The `/generate_qr` handler on the file backend (app.py 86-156, branch
where `employees` is falsy). `created_at` stands for the stringified
`datetime.now()` of line 104 and `ts` for the `strftime` timestamp of line
114; `saveOk` is the boolean returned by `save_employees_collection`, which
the handler discards (line 117). Returns the response together with the
persisted store, which is unchanged when the file write failed. -/
def generate_qr_file (store : List Employee)
    (name dob joining_date post department employee_id : String)
    (created_at ts : String) (saveOk : Bool) : GenQrResponse × List Employee :=
  let record_id := file_record_id ts
  let emp : Employee :=
    { name := name, dob := dob, joining_date := joining_date, post := post,
      department := department, employee_id := employee_id,
      created_at := created_at, _id := record_id }
  let persisted := if saveOk then store ++ [emp] else store
  ({ success := true,
     qr_code := "data:image/png;base64," ++
       qr_data name employee_id post department record_id,
     employee_data := employeePairs emp,
     record_id := record_id }, persisted)

/-- Pagination metadata of `/get_records` (app.py 304-311). -/
structure Pagination where
  page : Nat
  per_page : Nat
  total : Nat
  total_pages : Nat
  has_next : Bool
  has_prev : Bool
deriving DecidableEq

/-- Response of the `/get_records` handler. -/
structure GetRecordsResponse where
  success : Bool
  employees : List Employee
  pagination : Pagination
deriving DecidableEq

/-- The search filter of the file branch of `/get_records` (app.py 285-292):
case-insensitive substring match across all four fields. The `filter_by`
query parameter is not consulted in this branch. -/
def matchesAnyField (search_lower : String) (e : Employee) : Bool :=
  pyIn search_lower (pyLower e.name) || pyIn search_lower (pyLower e.employee_id) ||
  pyIn search_lower (pyLower e.department) || pyIn search_lower (pyLower e.post)

/-- Descending comparison on the sort key of app.py 296. -/
def createdAtGe (a b : Employee) : Bool := pyStrLe b.created_at a.created_at

/-- Insert into a sorted list, keeping earlier elements first on ties. -/
def insertSorted (le : Employee → Employee → Bool) (e : Employee) :
    List Employee → List Employee
  | [] => [e]
  | x :: xs => if le e x then e :: x :: xs else x :: insertSorted le e xs

/-- Stable descending sort by `created_at` (app.py 296,
`list.sort(key=lambda x: x.get(...), reverse=True)`). -/
def sortByCreatedAt : List Employee → List Employee
  | [] => []
  | e :: rest => insertSorted createdAtGe e (sortByCreatedAt rest)

/-- The `/get_records` handler on the file backend (app.py 239-312, JSON
branch). `page` and `per_page` are the positive query integers (the model
covers the 1-based pages of the source contract; `per_page = 0` raises a
`ZeroDivisionError` in the source, caught by the outer handler). -/
def get_records_file (store : List Employee) (page per_page : Nat)
    (search filter_by : String) : GetRecordsResponse :=
  let _ := filter_by
  let skip := (page - 1) * per_page
  let employees_list :=
    if search == "" then store
    else store.filter (matchesAnyField (pyLower search))
  let total := employees_list.length
  let sorted := sortByCreatedAt employees_list
  let all_employees := (sorted.drop skip).take per_page
  let total_pages := (total + per_page - 1) / per_page
  { success := true, employees := all_employees,
    pagination :=
      { page := page, per_page := per_page, total := total,
        total_pages := total_pages, has_next := decide (page < total_pages),
        has_prev := decide (1 < page) } }

/-- One record match test in the quick-search loop (app.py 358-365): only the
`name`, `employee_id` and `all` field selections have a branch. -/
def searchFieldMatch (query_lower field : String) (e : Employee) : Bool :=
  (field == "name" && pyIn query_lower (pyLower e.name)) ||
  (field == "employee_id" && pyIn query_lower (pyLower e.employee_id)) ||
  (field == "all" &&
    (pyIn query_lower (pyLower e.name) || pyIn query_lower (pyLower e.employee_id) ||
     pyIn query_lower (pyLower e.department) || pyIn query_lower (pyLower e.post)))

/-- The quick-search accumulation loop (app.py 357-368) with its early break
once ten results are collected. -/
def searchLoop (query_lower field : String) :
    List Employee → List Employee → List Employee
  | [], results => results
  | e :: rest, results =>
    if searchFieldMatch query_lower field e then
      let results := results ++ [e]
      if 10 ≤ results.length then results
      else searchLoop query_lower field rest results
    else searchLoop query_lower field rest results

/-- Response of the `/search_employee` handler. -/
structure SearchResponse where
  success : Bool
  results : List Employee
deriving DecidableEq

/-- The `/search_employee` handler on the file backend (app.py 318-370, JSON
branch): empty queries short-circuit to an empty result list (line 324). -/
def search_employee_file (store : List Employee) (q field : String) :
    SearchResponse :=
  if q == "" then { success := true, results := [] }
  else { success := true, results := searchLoop (pyLower q) field store [] }

/-- Sample record: a file-backend record as the create handler would store it. -/
def sampleA : Employee :=
  { name := "Jane Doe", dob := "1990-01-01", joining_date := "2020-01-01",
    post := "Engineer", department := "R&D",
    employee_id := "EMP20260101120000123",
    created_at := "2026-01-01 12:00:00", _id := "JSON20260101120000" }

/-- Sample record with a name and department used by the search claims. -/
def sampleB : Employee :=
  { name := "Alice Smith", dob := "1991-02-02", joining_date := "2021-02-02",
    post := "Analyst", department := "Sales", employee_id := "EMP000000000000001",
    created_at := "2026-01-02 09:00:00", _id := "JSON20260102090000" }

/-- Sample record used as a third distinct stored record. -/
def sampleC : Employee :=
  { name := "Bob Stone", dob := "1992-03-03", joining_date := "2022-03-03",
    post := "Clerk", department := "HR", employee_id := "EMP000000000000002",
    created_at := "2026-01-03 10:00:00", _id := "JSON20260103100000" }

/-- A process where the database connection failed at startup, so the file
backend is the only backend (`employees` is `None`). -/
def fileOnly (store : List Employee) : Backends :=
  { dbConfigured := false, dbFindByRecordId := fun _ => Except.ok none,
    dbFindByEmployeeId := fun _ => Except.ok none, fileStore := store }

/-- A process where the database backend is configured; its lookups return
no match (the scanned records live in the file store). -/
def dbEmpty (store : List Employee) : Backends :=
  { dbConfigured := true, dbFindByRecordId := fun _ => Except.ok none,
    dbFindByEmployeeId := fun _ => Except.ok none, fileStore := store }

/-- A process where the database backend is configured but every call to it
raises (degraded primary). -/
def dbRaising (store : List Employee) : Backends :=
  { dbConfigured := true, dbFindByRecordId := fun _ => Except.error (),
    dbFindByEmployeeId := fun _ => Except.error (), fileStore := store }

/-- Claim C1: the scan-lookup handler is supposed to resolve a stored record
from its decoded record_id also when the file backend is the primary (only)
backend.  The code violates this: both lookup phases sit under the
`if employees:` guard, so with the file backend alone nothing is ever looked
up.  This theorem evaluates the handler at the failing input: the QR text of
a stored file-backend record decodes to its record_id, yet the response
carries no employee data — while the very same store and text do resolve as
soon as a database handle is configured (the `JSON` prefix routing of app.py
184-187). -/
theorem c1_scan_lookup_dead_when_file_primary :
    (parseScanned (qr_data "Jane Doe" "EMP20260101120000123" "Engineer" "R&D"
        "JSON20260101120000") =
      (some "JSON20260101120000", some "EMP20260101120000123")) ∧
    (scan_data (fileOnly [sampleA])
        (qr_data "Jane Doe" "EMP20260101120000123" "Engineer" "R&D"
          "JSON20260101120000") =
      { success := true, employee_data := none,
        scanned_data := qr_data "Jane Doe" "EMP20260101120000123" "Engineer"
          "R&D" "JSON20260101120000" }) ∧
    (scan_data (dbEmpty [sampleA])
        (qr_data "Jane Doe" "EMP20260101120000123" "Engineer" "R&D"
          "JSON20260101120000") =
      { success := true, employee_data := some (secure_data sampleA),
        scanned_data := qr_data "Jane Doe" "EMP20260101120000123" "Engineer"
          "R&D" "JSON20260101120000" }) := by
  refine ⟨by decide, by decide, by decide⟩

/-- Claim C4: the employee_id fallback lookup is supposed to work for
whichever backend is primary.  The code violates this: the fallback phase is
also guarded by `if employees:` (app.py 198), so when the file backend is the
only backend a scanned `Employee ID:` line resolves nothing, although a
record with that employee_id is stored.  With a configured but raising
database primary, the same text does fall back to the file store and
resolves (app.py 203-206). -/
theorem c4_employee_id_fallback_dead_when_file_primary :
    (parseScanned "Employee ID: EMP20260101120000123" =
      (none, some "EMP20260101120000123")) ∧
    (scan_data (fileOnly [sampleA]) "Employee ID: EMP20260101120000123" =
      { success := true, employee_data := none,
        scanned_data := "Employee ID: EMP20260101120000123" }) ∧
    (scan_data (dbRaising [sampleA]) "Employee ID: EMP20260101120000123" =
      { success := true, employee_data := some (secure_data sampleA),
        scanned_data := "Employee ID: EMP20260101120000123" }) := by
  refine ⟨by decide, by decide, by decide⟩

/-- Claim C2, counterexample: `decode(encode(record))` does not recover the
employee_id of every record the create handler accepts.  A user-supplied
employee_id with a trailing space is stored verbatim, but the decoder strips
the extracted line, so the round trip returns the trimmed id instead. -/
theorem c2_counterexample_trailing_space :
    (parseScanned (qr_data "Jane Doe" "EMP1 " "Engineer" "R&D"
        "JSON20260101120000") =
      (some "JSON20260101120000", some "EMP1")) ∧ ("EMP1" : String) ≠ "EMP1 " := by
  refine ⟨by decide, by decide⟩

/-- Claim C3, counterexample: two create requests handled by the file backend
within the same clock second receive the same timestamp string, hence the
same `JSON`-prefixed record_id — the assigned ids of the two inserts are not
pairwise distinct. -/
theorem c3_counterexample_same_second :
    ((generate_qr_file [] "Alice A" "1990-01-01" "2020-01-01" "Engineer" "R&D"
        "EMP1" "2026-01-01 12:00:00.1" "20260101120000" true).1.record_id =
      (generate_qr_file
        (generate_qr_file [] "Alice A" "1990-01-01" "2020-01-01" "Engineer"
          "R&D" "EMP1" "2026-01-01 12:00:00.1" "20260101120000" true).2
        "Bob B" "1991-01-01" "2021-01-01" "Clerk" "HR" "EMP2"
        "2026-01-01 12:00:00.9" "20260101120000" true).1.record_id) ∧
    ¬ List.Nodup
      [(generate_qr_file [] "Alice A" "1990-01-01" "2020-01-01" "Engineer"
          "R&D" "EMP1" "2026-01-01 12:00:00.1" "20260101120000" true).1.record_id,
       (generate_qr_file
          (generate_qr_file [] "Alice A" "1990-01-01" "2020-01-01" "Engineer"
            "R&D" "EMP1" "2026-01-01 12:00:00.1" "20260101120000" true).2
          "Bob B" "1991-01-01" "2021-01-01" "Clerk" "HR" "EMP2"
          "2026-01-01 12:00:00.9" "20260101120000" true).1.record_id] := by
  refine ⟨by decide, by decide⟩

/-- Claim C7, counterexample: the file-backend filters do not match records
exactly on the selected field.  The quick search with field `department`
matches nothing at all even though the lowercased query is a substring of the
lowercased department, and the listing with field `name` returns a record
whose name does not contain the query (its department does): the `filter_by`
parameter is ignored by the JSON branch of `/get_records`. -/
theorem c7_counterexample_field_selection :
    (pyIn "sales" (pyLower "Sales") = true) ∧
    (search_employee_file [sampleB] "sales" "department" =
      { success := true, results := [] }) ∧
    (pyIn "sales" (pyLower "Alice Smith") = false) ∧
    ((get_records_file [sampleB] 1 5 "sales" "name").employees = [sampleB]) := by
  refine ⟨by decide, by decide, by decide, by decide⟩

/-- Claim C9: when the file write fails (`save_employees_collection` returns
`False`), the create handler still answers `success: true` with a QR code and
a record_id.  The returned boolean is discarded at app.py 117: the response
is literally the same as on a successful write, the success flag is set, the
data URI of the QR code and the fresh record_id are present — and the
persisted store is unchanged, so the caller has no indication the record was
lost. -/
theorem c9_save_failure_not_reported (store : List Employee)
    (name dob joining_date post department employee_id created_at ts : String) :
    ((generate_qr_file store name dob joining_date post department employee_id
        created_at ts false).1 =
      (generate_qr_file store name dob joining_date post department employee_id
        created_at ts true).1) ∧
    ((generate_qr_file store name dob joining_date post department employee_id
        created_at ts false).1.success = true) ∧
    ((generate_qr_file store name dob joining_date post department employee_id
        created_at ts false).1.record_id = file_record_id ts) ∧
    ((generate_qr_file store name dob joining_date post department employee_id
        created_at ts false).1.qr_code =
      "data:image/png;base64," ++
        qr_data name employee_id post department (file_record_id ts)) ∧
    ((generate_qr_file store name dob joining_date post department employee_id
        created_at ts false).2 = store) :=
  ⟨rfl, rfl, rfl, rfl, rfl⟩

/-- The file-backend id scheme is injective in the timestamp string. -/
theorem file_record_id_inj : Function.Injective file_record_id := by
  intro a b h
  have h2 : ("JSON" ++ a).data = ("JSON" ++ b).data := congrArg String.data h
  rw [String.data_append, String.data_append] at h2
  exact String.ext (List.append_cancel_left h2)

/-- Claim C3, amended: the record_ids the file backend assigns are pairwise
distinct provided the second-resolution creation timestamps of the inserts
are pairwise distinct (two inserts inside the same second collide, see the
counterexample). -/
theorem c3_distinct_seconds_distinct_ids (tss : List String)
    (h : tss.Nodup) : (tss.map file_record_id).Nodup :=
  h.map file_record_id_inj

/-- Witness for claim C3 at two concrete creation timestamps one second
apart. -/
theorem c3_distinct_ids_witness :
    ((["20260101120000", "20260101120001"] : List String).map
      file_record_id).Nodup :=
  c3_distinct_seconds_distinct_ids _ (by decide)

/-- Any employee data in a scan response is the five-key redacted dict. -/
theorem scanRespond_keys (s : String) (d : Option Employee)
    (ed : List (String × String))
    (h : (scanRespond s d).employee_data = some ed) :
    ed.map Prod.fst =
      ["name", "employee_id", "post", "department", "joining_date"] := by
  cases d with
  | none => simp [scanRespond] at h
  | some e =>
    simp only [scanRespond, Option.some.injEq] at h
    subst h
    rfl

/-- Claim C5: whenever the scan-lookup handler finds a matching record, the
returned employee_data has exactly the keys name, employee_id, post,
department and joining_date; dob, created_at and the internal id are absent. -/
theorem c5_scan_response_redacted (B : Backends) (s : String)
    (ed : List (String × String))
    (h : (scan_data B s).employee_data = some ed) :
    ed.map Prod.fst =
      ["name", "employee_id", "post", "department", "joining_date"] ∧
    "dob" ∉ ed.map Prod.fst ∧ "created_at" ∉ ed.map Prod.fst ∧
    "_id" ∉ ed.map Prod.fst := by
  have hk := scanRespond_keys s _ ed h
  refine ⟨hk, ?_, ?_, ?_⟩ <;> rw [hk] <;> decide

/-- Witness for claim C5: a concrete scan that matches a stored record. -/
theorem c5_redaction_witness :
    (secure_data sampleA).map Prod.fst =
      ["name", "employee_id", "post", "department", "joining_date"] ∧
    "dob" ∉ (secure_data sampleA).map Prod.fst ∧
    "created_at" ∉ (secure_data sampleA).map Prod.fst ∧
    "_id" ∉ (secure_data sampleA).map Prod.fst :=
  c5_scan_response_redacted (dbEmpty [sampleA]) "Record ID: JSON20260101120000"
    (secure_data sampleA) (by decide)

/-- A fold over lines none of which carries either label leaves the
extraction state unchanged. -/
theorem foldl_parseLine_id (lines : List (List Char))
    (acc : Option String × Option String)
    (h : ∀ line ∈ lines, leadsWith recLabel line = false ∧
      leadsWith empLabel line = false) :
    lines.foldl parseLine acc = acc := by
  induction lines generalizing acc with
  | nil => rfl
  | cons l ls ih =>
    have hl := h l (by simp)
    have hstep : parseLine acc l = acc := by
      unfold parseLine
      rw [hl.1, hl.2]
      simp
    rw [List.foldl_cons, hstep]
    exact ih acc (fun line hm => h line (by simp [hm]))

/-- Claim C8: scanned text containing no line that starts with `Record ID:`
and none that starts with `Employee ID:` yields a success response whose
employee_data is null and whose scanned_data echoes the input — malformed
text is a normal outcome, not an error. -/
theorem c8_unlabelled_text_is_echoed (B : Backends) (s : String)
    (h : ∀ line ∈ pySplitChar '\n' s.toList,
      leadsWith recLabel line = false ∧ leadsWith empLabel line = false) :
    scan_data B s =
      { success := true, employee_data := none, scanned_data := s } := by
  have hp : parseScanned s = (none, none) := foldl_parseLine_id _ _ h
  simp [scan_data, hp, pyTruthy, scanRespond]

/-- Witness for claim C8 on a concrete unrelated two-line text. -/
theorem c8_echo_witness :
    scan_data (fileOnly [sampleA]) "hello QR\nnothing here" =
      { success := true, employee_data := none,
        scanned_data := "hello QR\nnothing here" } :=
  c8_unlabelled_text_is_echoed _ _ (by decide)

/-- Inserting into the sorted list is a permutation of consing. -/
theorem insertSorted_perm (le : Employee → Employee → Bool) (e : Employee) :
    ∀ l : List Employee, List.Perm (insertSorted le e l) (e :: l) := by
  intro l
  induction l with
  | nil => exact List.Perm.refl _
  | cons x xs ih =>
    unfold insertSorted
    by_cases hle : le e x = true
    · rw [if_pos hle]
    · rw [if_neg hle]
      exact (ih.cons x).trans (List.Perm.swap e x xs)

/-- The listing sort permutes its input. -/
theorem sortByCreatedAt_perm :
    ∀ l : List Employee, List.Perm (sortByCreatedAt l) l := by
  intro l
  induction l with
  | nil => exact List.Perm.refl _
  | cons e rest ih =>
    exact (insertSorted_perm createdAtGe e (sortByCreatedAt rest)).trans (ih.cons e)

/-- Everything the quick-search loop emits was already accumulated or is a
matching record of the remaining input. -/
theorem mem_searchLoop (ql f : String) (x : Employee) :
    ∀ (rest acc : List Employee), x ∈ searchLoop ql f rest acc →
      x ∈ acc ∨ (x ∈ rest ∧ searchFieldMatch ql f x = true) := by
  intro rest
  induction rest with
  | nil => exact fun acc h => Or.inl h
  | cons e es ih =>
    intro acc h
    simp only [searchLoop] at h
    by_cases hm : searchFieldMatch ql f e = true
    · rw [if_pos hm] at h
      by_cases hlen : 10 ≤ (acc ++ [e]).length
      · rw [if_pos hlen] at h
        rcases List.mem_append.mp h with h1 | h2
        · exact Or.inl h1
        · have hx : x = e := by simpa using h2
          exact Or.inr ⟨by rw [hx]; exact List.mem_cons_self e es, by rw [hx]; exact hm⟩
      · rw [if_neg hlen] at h
        rcases ih _ h with h1 | h2
        · rcases List.mem_append.mp h1 with ha | hb
          · exact Or.inl ha
          · have hx : x = e := by simpa using hb
            exact Or.inr ⟨by rw [hx]; exact List.mem_cons_self e es, by rw [hx]; exact hm⟩
        · exact Or.inr ⟨List.mem_cons_of_mem e h2.1, h2.2⟩
    · rw [if_neg hm] at h
      rcases ih _ h with h1 | h2
      · exact Or.inl h1
      · exact Or.inr ⟨List.mem_cons_of_mem e h2.1, h2.2⟩

/-- When no record can match, the quick-search loop returns its accumulator. -/
theorem searchLoop_of_no_match (ql f : String)
    (hall : ∀ x : Employee, searchFieldMatch ql f x = false) :
    ∀ rest acc : List Employee, searchLoop ql f rest acc = acc := by
  intro rest
  induction rest with
  | nil => exact fun acc => rfl
  | cons e es ih =>
    intro acc
    simp only [searchLoop, hall e]
    simp only [Bool.false_eq_true, if_false]
    exact ih acc

/-- A field selection other than name, employee_id or all matches nothing in
the quick-search loop (app.py 358-365 has no branch for it). -/
theorem searchFieldMatch_other_field (ql f : String) (e : Employee)
    (h1 : f ≠ "name") (h2 : f ≠ "employee_id") (h3 : f ≠ "all") :
    searchFieldMatch ql f e = false := by
  unfold searchFieldMatch
  rw [beq_eq_false_iff_ne.mpr h1, beq_eq_false_iff_ne.mpr h2,
    beq_eq_false_iff_ne.mpr h3]
  simp

/-- Claim C10: the paginated listing and the quick search return records
unredacted — every returned record is a stored record whose serialized form
still carries the dob and created_at keys (unlike the scan response). -/
theorem c10_listing_and_search_unredacted (store : List Employee)
    (page per : Nat) (q fb f : String) (e : Employee)
    (h : e ∈ (get_records_file store page per q fb).employees ∨
      e ∈ (search_employee_file store q f).results) :
    e ∈ store ∧ "dob" ∈ (employeePairs e).map Prod.fst ∧
      "created_at" ∈ (employeePairs e).map Prod.fst := by
  refine ⟨?_, by simp [employeePairs], by simp [employeePairs]⟩
  rcases h with h | h
  · simp only [get_records_file] at h
    have h2 := List.mem_of_mem_drop (List.mem_of_mem_take h)
    have h3 := (sortByCreatedAt_perm _).mem_iff.mp h2
    by_cases hq : (q == "") = true
    · rw [if_pos hq] at h3
      exact h3
    · rw [if_neg hq] at h3
      exact List.mem_of_mem_filter h3
  · simp only [search_employee_file] at h
    by_cases hq : (q == "") = true
    · rw [if_pos hq] at h
      simp at h
    · rw [if_neg hq] at h
      rcases mem_searchLoop _ _ _ _ _ h with h1 | h2
      · simp at h1
      · exact h2.1

/-- Witness for claim C10 at a concrete one-record store. -/
theorem c10_unredacted_witness :
    sampleA ∈ [sampleA] ∧ "dob" ∈ (employeePairs sampleA).map Prod.fst ∧
      "created_at" ∈ (employeePairs sampleA).map Prod.fst :=
  c10_listing_and_search_unredacted [sampleA] 1 5 "" "all" "all" sampleA
    (Or.inl (by decide))

/-- Claim C7, amended: on the file backend the listing filter matches a
record exactly when the lowercased query is a substring of the lowercased
value of ANY of the four fields, regardless of the selected field (the JSON
branch ignores `filter_by`), and the quick-search filter honours only the
name, employee_id and all selections — any other selected field matches
nothing. -/
theorem c7_file_filter_semantics (store : List Employee) (page per : Nat)
    (q fb f : String) (e : Employee) (hq : q ≠ "") :
    (e ∈ (get_records_file store page per q fb).employees →
      e ∈ store ∧ matchesAnyField (pyLower q) e = true) ∧
    (e ∈ store → matchesAnyField (pyLower q) e = true →
      e ∈ (get_records_file store 1 store.length q fb).employees) ∧
    (e ∈ (search_employee_file store q f).results →
      e ∈ store ∧ searchFieldMatch (pyLower q) f e = true) ∧
    (f ≠ "name" → f ≠ "employee_id" → f ≠ "all" →
      (search_employee_file store q f).results = []) := by
  have hqb : (q == "") = false := beq_eq_false_iff_ne.mpr hq
  refine ⟨?_, ?_, ?_, ?_⟩
  · intro h
    simp only [get_records_file, hqb, Bool.false_eq_true, if_false] at h
    have h2 := List.mem_of_mem_drop (List.mem_of_mem_take h)
    have h3 := (sortByCreatedAt_perm _).mem_iff.mp h2
    exact List.mem_filter.mp h3
  · intro he hm
    have h1 : e ∈ store.filter (matchesAnyField (pyLower q)) :=
      List.mem_filter.mpr ⟨he, hm⟩
    have h2 := (sortByCreatedAt_perm _).mem_iff.mpr h1
    simp only [get_records_file, hqb, Bool.false_eq_true, if_false]
    have hlen : (sortByCreatedAt (store.filter (matchesAnyField (pyLower q)))).length
        ≤ store.length := by
      rw [(sortByCreatedAt_perm _).length_eq]
      exact List.length_filter_le _ _
    simp only [Nat.sub_self, Nat.zero_mul, List.drop_zero]
    rw [List.take_of_length_le hlen]
    exact h2
  · intro h
    simp only [search_employee_file, hqb, Bool.false_eq_true, if_false] at h
    rcases mem_searchLoop _ _ _ _ _ h with h1 | h2
    · simp at h1
    · exact h2
  · intro g1 g2 g3
    have hall : ∀ x : Employee, searchFieldMatch (pyLower q) f x = false :=
      fun x => searchFieldMatch_other_field _ _ _ g1 g2 g3
    simp only [search_employee_file, hqb, Bool.false_eq_true, if_false]
    exact searchLoop_of_no_match _ _ hall store []

/-- Witness for claim C7 at a concrete store, a capitalised query and the
dead `department` selection. -/
theorem c7_filter_witness :
    (sampleB ∈ (get_records_file [sampleB] 1 5 "SMITH" "name").employees →
      sampleB ∈ [sampleB] ∧ matchesAnyField (pyLower "SMITH") sampleB = true) ∧
    (sampleB ∈ [sampleB] → matchesAnyField (pyLower "SMITH") sampleB = true →
      sampleB ∈ (get_records_file [sampleB] 1 [sampleB].length "SMITH" "name").employees) ∧
    (sampleB ∈ (search_employee_file [sampleB] "SMITH" "department").results →
      sampleB ∈ [sampleB] ∧
        searchFieldMatch (pyLower "SMITH") "department" sampleB = true) ∧
    ("department" ≠ "name" → "department" ≠ "employee_id" →
      "department" ≠ "all" →
      (search_employee_file [sampleB] "SMITH" "department").results = []) :=
  c7_file_filter_semantics [sampleB] 1 5 "SMITH" "name" "department" sampleB
    (by decide)

/-- One page step of the ceiling division: for a nonempty remainder, the
page count is one more than the page count of the remainder after P items. -/
theorem ceil_div_succ (P : Nat) (hP : 0 < P) (m : Nat) (hm : 1 ≤ m) :
    (m + P - 1) / P = ((m - P) + P - 1) / P + 1 := by
  rcases le_or_lt m P with hle | hlt
  · have e2 : m - P = 0 := by omega
    have e1 : m + P - 1 = (m - 1) + P := by omega
    rw [e1, Nat.add_div_right _ hP, e2]
    have e3 : (m - 1) / P = 0 := Nat.div_eq_of_lt (by omega)
    have e4 : (0 + P - 1) / P = 0 := Nat.div_eq_of_lt (by omega)
    rw [e3, e4]
  · have e1 : m + P - 1 = ((m - P) + P - 1) + P := by omega
    rw [e1, Nat.add_div_right _ hP]

/-- Slicing a list into ceil(N/P) pages of size P and flattening them
restores the list (fuel-indexed induction on the length). -/
theorem pages_flatten (P : Nat) (hP : 0 < P) :
    ∀ (n : Nat) (l : List Employee), l.length ≤ n →
      ((List.range ((l.length + P - 1) / P)).map
        (fun i => (l.drop (i * P)).take P)).flatten = l := by
  intro n
  induction n with
  | zero =>
    intro l hl
    have hnil : l = [] := List.eq_nil_of_length_eq_zero (Nat.le_zero.mp hl)
    subst hnil
    have h0 : ((List.length ([] : List Employee)) + P - 1) / P = 0 :=
      Nat.div_eq_of_lt (by simp; omega)
    rw [h0]
    rfl
  | succ n ih =>
    intro l hl
    cases l with
    | nil =>
      have h0 : ((List.length ([] : List Employee)) + P - 1) / P = 0 :=
        Nat.div_eq_of_lt (by simp; omega)
      rw [h0]
      rfl
    | cons a t =>
      have hK : ((a :: t).length + P - 1) / P =
          (((a :: t).drop P).length + P - 1) / P + 1 := by
        rw [List.length_drop, List.length_cons]
        exact ceil_div_succ P hP (t.length + 1) (by omega)
      rw [hK, List.range_succ_eq_map, List.map_cons, List.map_map,
        List.flatten_cons]
      have hzero : ((a :: t).drop (0 * P)).take P = (a :: t).take P := by simp
      rw [hzero]
      have hmap :
          (List.range ((((a :: t).drop P).length + P - 1) / P)).map
            ((fun i => ((a :: t).drop (i * P)).take P) ∘ Nat.succ) =
          (List.range ((((a :: t).drop P).length + P - 1) / P)).map
            (fun i => (((a :: t).drop P).drop (i * P)).take P) := by
        apply List.map_congr_left
        intro i _
        simp only [Function.comp_apply]
        rw [List.drop_drop]
        have : Nat.succ i * P = P + i * P := by
          rw [Nat.succ_mul]; omega
        rw [this]
      rw [hmap, ih ((a :: t).drop P)
        (by rw [List.length_drop]; simp only [List.length_cons] at hl ⊢; omega)]
      exact List.take_append_drop P (a :: t)

/-- The listing pages of a store under page size `P`: the `employees` arrays
of `/get_records` for pages `1 .. ceil(N/P)` with no search term. -/
def recordPages (store : List Employee) (P : Nat) : List (List Employee) :=
  (List.range ((store.length + P - 1) / P)).map
    (fun i => (get_records_file store (i + 1) P "" "all").employees)

/-- A page of the unfiltered listing is a slice of the sorted store. -/
theorem get_records_page_slice (store : List Employee) (P i : Nat) :
    (get_records_file store (i + 1) P "" "all").employees =
      ((sortByCreatedAt store).drop (i * P)).take P := by
  simp [get_records_file]

/-- Concatenating all listing pages restores the sorted store. -/
theorem recordPages_flatten (store : List Employee) (P : Nat) (hP : 0 < P) :
    (recordPages store P).flatten = sortByCreatedAt store := by
  unfold recordPages
  rw [List.map_congr_left (fun i _ => get_records_page_slice store P i)]
  have hl : store.length = (sortByCreatedAt store).length :=
    ((sortByCreatedAt_perm store).length_eq).symm
  rw [hl]
  exact pages_flatten P hP _ _ le_rfl

/-- Claim C6: for a file-backend store of N distinct records and page size
P ≥ 1, the pages 1 .. ceil(N/P) of the listing have item counts summing to
N, no record appears on two different pages, and every page response reports
`total = N` (the match count before slicing). -/
theorem c6_pagination_partition (store : List Employee) (P : Nat)
    (hP : 0 < P) (hnd : store.Nodup) :
    ((recordPages store P).map List.length).sum = store.length ∧
    (recordPages store P).Pairwise (fun a b => ∀ x ∈ a, x ∉ b) ∧
    ∀ i ∈ List.range ((store.length + P - 1) / P),
      (get_records_file store (i + 1) P "" "all").pagination.total =
        store.length := by
  have hflat := recordPages_flatten store P hP
  refine ⟨?_, ?_, ?_⟩
  · rw [← List.length_flatten, hflat]
    exact (sortByCreatedAt_perm store).length_eq
  · have hnd2 : (sortByCreatedAt store).Nodup :=
      ((sortByCreatedAt_perm store).nodup_iff).mpr hnd
    rw [← hflat] at hnd2
    exact (List.nodup_flatten.mp hnd2).2.imp
      (fun hd x hx hx2 => hd hx hx2)
  · intro i _
    simp [get_records_file]

/-- Witness for claim C6: three distinct records, page size two. -/
theorem c6_pagination_witness :
    ((recordPages [sampleA, sampleB, sampleC] 2).map List.length).sum =
      [sampleA, sampleB, sampleC].length ∧
    (recordPages [sampleA, sampleB, sampleC] 2).Pairwise
      (fun a b => ∀ x ∈ a, x ∉ b) ∧
    (get_records_file [sampleA, sampleB, sampleC] 1 2 "" "all").pagination.total
      = [sampleA, sampleB, sampleC].length := by
  obtain ⟨h1, h2, h3⟩ :=
    c6_pagination_partition [sampleA, sampleB, sampleC] 2 (by decide) (by decide)
  exact ⟨h1, h2, h3 0 (by decide)⟩

/-- `dropWhile` skips over a wholly-satisfying prefix. -/
theorem dropWhile_all_append (p : Char → Bool) (a b : List Char)
    (h : a.all p = true) : (a ++ b).dropWhile p = b.dropWhile p := by
  induction a with
  | nil => rfl
  | cons x xs ih =>
    simp only [List.all_cons, Bool.and_eq_true] at h
    simp only [List.cons_append, List.dropWhile_cons, h.1, if_true]
    exact ih h.2

/-- `dropWhile` stops at a failing head. -/
theorem dropWhile_cons_of_neg (p : Char → Bool) (c : Char) (t : List Char)
    (h : p c = false) : (c :: t).dropWhile p = c :: t := by
  simp [List.dropWhile_cons, h]

/-- Dropping a prefix can only shorten a list. -/
theorem length_dropWhile_le (p : Char → Bool) :
    ∀ l : List Char, (l.dropWhile p).length ≤ l.length := by
  intro l
  induction l with
  | nil => exact Nat.le_refl _
  | cons x xs ih =>
    rw [List.dropWhile_cons]
    by_cases hp : p x = true
    · rw [if_pos hp]
      exact Nat.le_succ_of_le ih
    · rw [if_neg hp]

/-- A list unchanged by `dropWhile p` has a head failing `p`. -/
theorem dropWhile_stable_head (p : Char → Bool) (l : List Char)
    (h : l.dropWhile p = l) : ∀ c, l.head? = some c → p c = false := by
  intro c hc
  cases l with
  | nil => simp at hc
  | cons x xs =>
    simp only [List.head?_cons, Option.some.injEq] at hc
    subst hc
    by_cases hp : p x = true
    · exfalso
      rw [List.dropWhile_cons, if_pos hp] at h
      have hlen := congrArg List.length h
      have hle := length_dropWhile_le p xs
      simp only [List.length_cons] at hlen
      omega
    · simpa using hp

/-- Stripping a list that is whitespace, then a block with non-space ends,
then whitespace, returns the middle block. -/
theorem pyStrip_sandwich (pre core post : List Char)
    (hpre : pre.all isSpaceChar = true) (hpost : post.all isSpaceChar = true)
    (hcore : core ≠ [])
    (hh : ∀ c, core.head? = some c → isSpaceChar c = false)
    (hl : ∀ c, core.reverse.head? = some c → isSpaceChar c = false) :
    pyStrip (pre ++ (core ++ post)) = core := by
  have h1 : (pre ++ (core ++ post)).dropWhile isSpaceChar = core ++ post := by
    rw [dropWhile_all_append _ _ _ hpre]
    cases core with
    | nil => exact absurd rfl hcore
    | cons x xs =>
      simp only [List.cons_append]
      exact dropWhile_cons_of_neg _ _ _ (hh x rfl)
  unfold pyStrip
  rw [h1, List.reverse_append]
  have h2 : (post.reverse ++ core.reverse).dropWhile isSpaceChar =
      core.reverse := by
    rw [dropWhile_all_append _ _ _ (by rw [List.all_reverse]; exact hpost)]
    cases hrc : core.reverse with
    | nil => rfl
    | cons d ds =>
      exact dropWhile_cons_of_neg _ _ _ (hl d (by rw [hrc]; rfl))
  rw [h2, List.reverse_reverse]

/-- Splitting on a separator that heads a separator-free block emits the
block as one chunk. -/
theorem pySplitChar_append_cons (c : Char) (xs ys : List Char)
    (h : c ∉ xs) : pySplitChar c (xs ++ c :: ys) = xs :: pySplitChar c ys := by
  induction xs with
  | nil => simp [pySplitChar]
  | cons a t ih =>
    rw [List.mem_cons, not_or] at h
    simp only [List.cons_append, pySplitChar,
      beq_eq_false_iff_ne.mpr (Ne.symm h.1), Bool.false_eq_true, if_false,
      List.append_eq, ih h.2]

/-- Splitting a separator-free list yields a single chunk. -/
theorem pySplitChar_no_occ (c : Char) (xs : List Char) (h : c ∉ xs) :
    pySplitChar c xs = [xs] := by
  induction xs with
  | nil => rfl
  | cons a t ih =>
    rw [List.mem_cons, not_or] at h
    simp only [pySplitChar, beq_eq_false_iff_ne.mpr (Ne.symm h.1),
      Bool.false_eq_true, if_false, ih h.2]

/-- Every list starts with itself. -/
theorem leadsWith_append (s t : List Char) : leadsWith s (s ++ t) = true := by
  induction s with
  | nil => rfl
  | cons a p ih => simp [leadsWith, ih]

/-- When the separator occurs nowhere, the first-occurrence split fails. -/
theorem splitAtFirst_eq_none (sep l : List Char)
    (h : hasSub sep l = false) : splitAtFirst sep l = none := by
  induction l with
  | nil => rfl
  | cons b t ih =>
    have h' : (leadsWith sep (b :: t) || hasSub sep t) = false := h
    rw [Bool.or_eq_false_iff] at h'
    simp only [splitAtFirst, h'.1, Bool.false_eq_true, if_false, ih h'.2]

/-- The first-occurrence split around a leading separator. -/
theorem splitAtFirst_self_append (sep rest : List Char) (hsep : sep ≠ []) :
    splitAtFirst sep (sep ++ rest) = some ([], rest) := by
  cases sep with
  | nil => exact absurd rfl hsep
  | cons a s =>
    have hl : leadsWith (a :: s) (a :: (s ++ rest)) = true := by
      rw [← List.cons_append]
      exact leadsWith_append _ _
    show splitAtFirst (a :: s) (a :: (s ++ rest)) = some ([], rest)
    rw [splitAtFirst, hl]
    simp only [if_true, List.length_cons, List.drop_succ_cons, List.drop_left]

/-- `line.split(sep)[1]` on a line made of the label followed by a
label-free remainder returns that remainder. -/
theorem pySplitSecond_label (sep rest : List Char) (hsep : sep ≠ [])
    (hocc : hasSub sep rest = false) :
    pySplitSecond sep (sep ++ rest) = rest := by
  simp only [pySplitSecond, splitAtFirst_self_append sep rest hsep,
    splitAtFirst_eq_none sep rest hocc]

/-- An occurrence-free tail and a mismatching head give an occurrence-free
list. -/
theorem hasSub_cons_false (sep : List Char) (b : Char) (l : List Char)
    (h1 : leadsWith sep (b :: l) = false) (h2 : hasSub sep l = false) :
    hasSub sep (b :: l) = false := by
  show (leadsWith sep (b :: l) || hasSub sep l) = false
  rw [h1, h2]
  rfl

/-- Stripping a single leading space from an already-trimmed list. -/
theorem pyStrip_space_cons (e : List Char)
    (h1 : e.dropWhile isSpaceChar = e)
    (h2 : e.reverse.dropWhile isSpaceChar = e.reverse) :
    pyStrip (' ' :: e) = e := by
  unfold pyStrip
  have hsp : (' ' :: e).dropWhile isSpaceChar = e.dropWhile isSpaceChar := by
    simp [List.dropWhile_cons, isSpaceChar]
  rw [hsp, h1, h2, List.reverse_reverse]

/-- The stripped QR payload as a character list: the six labelled lines of
app.py 125-130 joined by newlines (the shape `qr_data` strips its template
down to). -/
def qrCore (name employee_id post department record_id : String) : List Char :=
  "Employee Verification:".toList ++ ('\n' :: (("Name: ".toList ++ name.toList) ++ ('\n' :: (("Employee ID: ".toList ++ employee_id.toList) ++ ('\n' :: (("Post: ".toList ++ post.toList) ++ ('\n' :: (("Department: ".toList ++ department.toList) ++ ('\n' :: ("Record ID: ".toList ++ record_id.toList))))))))))

/-- String concatenation concatenates the character lists. -/
theorem toList_append (s t : String) : (s ++ t).toList = s.toList ++ t.toList :=
  rfl

/-- The raw QR template is a newline, the six payload lines, and the
trailing indentation whitespace. -/
theorem qr_template_split (name eid post dep rid : String) :
    ("\nEmployee Verification:\nName: " ++ name ++ "\nEmployee ID: " ++ eid ++
      "\nPost: " ++ post ++ "\nDepartment: " ++ dep ++ "\nRecord ID: " ++ rid ++
      "\n        ").toList =
    ['\n'] ++ (qrCore name eid post dep rid ++ ('\n' :: "        ".toList)) := by
  have t1 : ("\nEmployee Verification:\nName: ").toList =
      '\n' :: ("Employee Verification:".toList ++ ('\n' :: "Name: ".toList)) := rfl
  have t2 : ("\nEmployee ID: ").toList = '\n' :: "Employee ID: ".toList := rfl
  have t3 : ("\nPost: ").toList = '\n' :: "Post: ".toList := rfl
  have t4 : ("\nDepartment: ").toList = '\n' :: "Department: ".toList := rfl
  have t5 : ("\nRecord ID: ").toList = '\n' :: "Record ID: ".toList := rfl
  have t6 : ("\n        ").toList = '\n' :: "        ".toList := rfl
  simp only [toList_append, t1, t2, t3, t4, t5, t6, qrCore,
    List.cons_append, List.append_assoc, List.nil_append]

/-- Splitting the payload on newlines yields the six template lines, as long
as no embedded field value carries a newline of its own. -/
theorem qrCore_lines (name eid post dep rid : String)
    (hn : ('\n' : Char) ∉ name.toList) (he : ('\n' : Char) ∉ eid.toList)
    (hp : ('\n' : Char) ∉ post.toList) (hd : ('\n' : Char) ∉ dep.toList)
    (hr : ('\n' : Char) ∉ rid.toList) :
    pySplitChar '\n' (qrCore name eid post dep rid) =
      ["Employee Verification:".toList, "Name: ".toList ++ name.toList,
       "Employee ID: ".toList ++ eid.toList, "Post: ".toList ++ post.toList,
       "Department: ".toList ++ dep.toList,
       "Record ID: ".toList ++ rid.toList] := by
  unfold qrCore
  rw [pySplitChar_append_cons _ _ _ (by decide)]
  rw [pySplitChar_append_cons _ _ _ (fun hmem =>
    (List.mem_append.mp hmem).elim (fun h1 => absurd h1 (by decide)) hn)]
  rw [pySplitChar_append_cons _ _ _ (fun hmem =>
    (List.mem_append.mp hmem).elim (fun h1 => absurd h1 (by decide)) he)]
  rw [pySplitChar_append_cons _ _ _ (fun hmem =>
    (List.mem_append.mp hmem).elim (fun h1 => absurd h1 (by decide)) hp)]
  rw [pySplitChar_append_cons _ _ _ (fun hmem =>
    (List.mem_append.mp hmem).elim (fun h1 => absurd h1 (by decide)) hd)]
  rw [pySplitChar_no_occ _ _ (fun hmem =>
    (List.mem_append.mp hmem).elim (fun h1 => absurd h1 (by decide)) hr)]

/-- A nonempty string whose reverse survives a whitespace `dropWhile` ends
in a non-whitespace character. -/
theorem last_not_space (s : String)
    (hstable : s.toList.reverse.dropWhile isSpaceChar = s.toList.reverse) :
    ∀ c, s.toList.reverse.head? = some c → isSpaceChar c = false :=
  dropWhile_stable_head isSpaceChar s.toList.reverse hstable

/-- Claim C2, amended: decoding the encoded QR text of a created record
recovers exactly its record_id and employee_id, provided the user-supplied
name, post and department contain no newline, the employee_id contains no
newline, carries no leading or trailing whitespace and does not contain the
literal label `Employee ID:`, and the record_id (always backend-assigned) is
nonempty, newline-free, has non-whitespace ends and does not contain the
literal label `Record ID:`.  Auto-generated employee ids and both backends
record ids always satisfy these side conditions. -/
theorem c2_decode_encode_roundtrip
    (name employee_id post department record_id : String)
    (hn : ('\n' : Char) ∉ name.toList)
    (hpo : ('\n' : Char) ∉ post.toList)
    (hdep : ('\n' : Char) ∉ department.toList)
    (he0 : ('\n' : Char) ∉ employee_id.toList)
    (he1 : employee_id.toList.dropWhile isSpaceChar = employee_id.toList)
    (he2 : employee_id.toList.reverse.dropWhile isSpaceChar =
      employee_id.toList.reverse)
    (he3 : hasSub empLabel employee_id.toList = false)
    (hr_ne : record_id ≠ "")
    (hr0 : ('\n' : Char) ∉ record_id.toList)
    (hr1 : record_id.toList.dropWhile isSpaceChar = record_id.toList)
    (hr2 : record_id.toList.reverse.dropWhile isSpaceChar =
      record_id.toList.reverse)
    (hr3 : hasSub recLabel record_id.toList = false) :
    parseScanned (qr_data name employee_id post department record_id) =
      (some record_id, some employee_id) := by
  obtain ⟨d, ds, hds⟩ : ∃ d ds, record_id.toList.reverse = d :: ds := by
    cases hR : record_id.toList.reverse with
    | nil =>
      exfalso
      apply hr_ne
      have h0 : record_id.toList = [] := by
        simpa using congrArg List.reverse hR
      exact String.ext h0
    | cons d ds => exact ⟨d, ds, rfl⟩
  have hdns : isSpaceChar d = false :=
    last_not_space record_id hr2 d (by rw [hds]; rfl)
  have hcore_flat : qrCore name employee_id post department record_id =
      ("Employee Verification:".toList ++ ('\n' :: (("Name: ".toList ++
        name.toList) ++ ('\n' :: (("Employee ID: ".toList ++
        employee_id.toList) ++ ('\n' :: (("Post: ".toList ++ post.toList) ++
        ('\n' :: (("Department: ".toList ++ department.toList) ++
        ('\n' :: "Record ID: ".toList)))))))))) ++ record_id.toList := by
    simp only [qrCore, List.cons_append, List.append_assoc, List.nil_append]
  have hcore_ne : qrCore name employee_id post department record_id ≠ [] := by
    intro h
    have h0 : (qrCore name employee_id post department record_id).head? =
        some 'E' := rfl
    rw [h] at h0
    simp at h0
  have hh : ∀ c, (qrCore name employee_id post department record_id).head? =
      some c → isSpaceChar c = false := by
    intro c hc
    have h0 : (qrCore name employee_id post department record_id).head? =
        some 'E' := rfl
    rw [h0] at hc
    cases hc
    decide
  have hl : ∀ c,
      (qrCore name employee_id post department record_id).reverse.head? =
        some c → isSpaceChar c = false := by
    intro c hc
    rw [hcore_flat, List.reverse_append, hds] at hc
    simp only [List.cons_append, List.head?_cons, Option.some.injEq] at hc
    rw [← hc]
    exact hdns
  have hstrip : pyStrip (("\nEmployee Verification:\nName: " ++ name ++
      "\nEmployee ID: " ++ employee_id ++ "\nPost: " ++ post ++
      "\nDepartment: " ++ department ++ "\nRecord ID: " ++ record_id ++
      "\n        ").toList) =
      qrCore name employee_id post department record_id := by
    rw [qr_template_split]
    exact pyStrip_sandwich _ _ _ (by decide) (by decide) hcore_ne hh hl
  have hqr : qr_data name employee_id post department record_id =
      String.mk (qrCore name employee_id post department record_id) := by
    unfold qr_data
    rw [hstrip]
  have hsplitE : pySplitSecond empLabel
      ("Employee ID: ".toList ++ employee_id.toList) = ' ' :: employee_id.toList := by
    have hocc : hasSub empLabel (' ' :: employee_id.toList) = false :=
      hasSub_cons_false _ _ _ rfl he3
    exact pySplitSecond_label empLabel (' ' :: employee_id.toList)
      (by decide) hocc
  have hsplitR : pySplitSecond recLabel
      ("Record ID: ".toList ++ record_id.toList) = ' ' :: record_id.toList := by
    have hocc : hasSub recLabel (' ' :: record_id.toList) = false :=
      hasSub_cons_false _ _ _ rfl hr3
    exact pySplitSecond_label recLabel (' ' :: record_id.toList)
      (by decide) hocc
  calc parseScanned (qr_data name employee_id post department record_id)
      = (pySplitChar '\n'
          (qrCore name employee_id post department record_id)).foldl
          parseLine (none, none) := by
        rw [parseScanned, hqr]
        rfl
    _ = (["Employee Verification:".toList, "Name: ".toList ++ name.toList,
          "Employee ID: ".toList ++ employee_id.toList,
          "Post: ".toList ++ post.toList,
          "Department: ".toList ++ department.toList,
          "Record ID: ".toList ++ record_id.toList]).foldl
          parseLine (none, none) := by
        rw [qrCore_lines name employee_id post department record_id
          hn he0 hpo hdep hr0]
    _ = (some (String.mk (pyStrip (pySplitSecond recLabel
          ("Record ID: ".toList ++ record_id.toList)))),
         some (String.mk (pyStrip (pySplitSecond empLabel
          ("Employee ID: ".toList ++ employee_id.toList))))) := rfl
    _ = (some record_id, some employee_id) := by
        rw [hsplitE, hsplitR, pyStrip_space_cons _ he1 he2,
          pyStrip_space_cons _ hr1 hr2]
        rfl

/-- Witness for claim C2 at a concrete created record. -/
theorem c2_roundtrip_witness :
    parseScanned (qr_data "Jane Doe" "EMP20260101120000123" "Engineer" "R&D"
      "JSON20260101120000") =
      (some "JSON20260101120000", some "EMP20260101120000123") :=
  c2_decode_encode_roundtrip "Jane Doe" "EMP20260101120000123" "Engineer"
    "R&D" "JSON20260101120000" (by decide) (by decide) (by decide) (by decide)
    (by decide) (by decide) (by decide) (by decide) (by decide) (by decide)
    (by decide) (by decide)

end QrApp
